import Mathlib

/-!
A shallow embedding of the EGL context layer of this repository
(src/glutin/src/lib.rs, src/glutin/src/context.rs, src/glutin/src/api/egl/mod.rs).

The native EGL driver is abstracted as an oracle structure `EglBackend`; the
functions below are direct translations of the corresponding Rust functions.
Native pointers and handles are modelled as `Nat` (0 is the null handle, i.e.
`EGL_NO_CONTEXT` / `EGL_NO_SURFACE`).  Machine integers (`EGLint = i32`,
`u8`, `u16`) are modelled as `Int` / `Nat` with explicit wrapping where the
Rust code performs an `as` cast.  A Rust `panic!` / `unimplemented!` /
`unwrap` failure is modelled by an `Option` wrapper returning `none`.
-/

namespace Glutin

/-! ### Data model (src/glutin/src/lib.rs) -/

inductive Api where
  | OpenGl
  | OpenGlEs
  | WebGl
deriving DecidableEq

inductive GlProfile where
  | Compatibility
  | Core
deriving DecidableEq

/-- `GlRequest` from lib.rs; versions `(u8, u8)` are modelled as `Nat × Nat`. -/
inductive GlRequest where
  | Latest
  | Specific (api : Api) (version : Nat × Nat)
  | GlThenGles (opengl_version : Nat × Nat) (opengles_version : Nat × Nat)
deriving DecidableEq

inductive Robustness where
  | NotRobust
  | NoError
  | RobustNoResetNotification
  | TryRobustNoResetNotification
  | RobustLoseContextOnReset
  | TryRobustLoseContextOnReset
deriving DecidableEq

inductive ReleaseBehavior where
  | None
  | Flush
deriving DecidableEq

/-- `VSyncMode` from lib.rs; the `i8` payload of `SwapInterval` is an `Int`. -/
inductive VSyncMode where
  | Adaptive
  | On
  | Off
  | SwapInterval (interval : Int)
deriving DecidableEq

/-- `VSyncMode::get_swap_interval` (lib.rs): the `i8 as i32` cast is
value-preserving. -/
def VSyncMode.get_swap_interval : VSyncMode → Int
  | .Adaptive => -1
  | .Off => 0
  | .On => 1
  | .SwapInterval i => i

/-- `CreationError` from lib.rs.  Payloads that carry only opaque boxed
errors (and the nested error list of `CreationErrors`, unused on the EGL
paths embedded here) are dropped; strings are kept because the code
distinguishes messages. -/
inductive CreationError where
  | OsError (msg : String)
  | NotSupported (msg : String)
  | NoBackendAvailable
  | RobustnessNotSupported
  | OpenGlVersionNotSupported
  | NoAvailablePixelFormat
  | PlatformSpecific (msg : String)
  | Window
  | CreationErrors
deriving DecidableEq

/-- `ContextError` from lib.rs (the `io::Error` payload is dropped). -/
inductive ContextError where
  | OsError (msg : String)
  | IoError
  | ContextLost
  | FunctionUnavailable
deriving DecidableEq

/-- Resolved `PixelFormat` (lib.rs); `u8`/`u16` fields are `Nat`. -/
structure PixelFormat where
  hardware_accelerated : Bool
  color_bits : Nat
  alpha_bits : Nat
  depth_bits : Nat
  stencil_bits : Nat
  stereoscopy : Bool
  double_buffer : Bool
  multisampling : Option Nat
  srgb : Bool
deriving DecidableEq

/-- `PixelFormatRequirements` (lib.rs). -/
structure PixelFormatRequirements where
  hardware_accelerated : Option Bool
  color_bits : Option Nat
  float_color_buffer : Bool
  alpha_bits : Option Nat
  depth_bits : Option Nat
  stencil_bits : Option Nat
  double_buffer : Option Bool
  multisampling : Option Nat
  stereoscopy : Bool
  srgb : Bool
  release_behavior : ReleaseBehavior
  x11_visual_xid : Option Nat
deriving DecidableEq

/-- The `Default` impl for `PixelFormatRequirements` (lib.rs). -/
def PixelFormatRequirements.default : PixelFormatRequirements :=
  { hardware_accelerated := some true
    color_bits := some 24
    float_color_buffer := false
    alpha_bits := some 8
    depth_bits := some 24
    stencil_bits := some 8
    double_buffer := none
    multisampling := none
    stereoscopy := false
    srgb := true
    release_behavior := .Flush
    x11_visual_xid := none }

/-- `GlAttributes<S>` (lib.rs) with the sharing reference modelled as the
shared context's native handle. -/
structure GlAttributes where
  sharing : Option Nat
  version : GlRequest
  profile : Option GlProfile
  debug : Bool
  robustness : Robustness
  vsync : VSyncMode
deriving DecidableEq

/-- The `Default` impl for `GlAttributes` (lib.rs), with the
`cfg!(debug_assertions)` default for `debug` taken as `false`. -/
def GlAttributes.default : GlAttributes :=
  { sharing := none
    version := .Latest
    profile := none
    debug := false
    robustness := .NotRobust
    vsync := .Off }

/-! ### EGL constants (glutin_egl_sys / the EGL registry), as `c_int` values -/

def EGL_COLOR_BUFFER_TYPE : Int := 0x303F
def EGL_RGB_BUFFER : Int := 0x308E
def EGL_SURFACE_TYPE : Int := 0x3033
def EGL_WINDOW_BIT : Int := 0x0004
def EGL_PBUFFER_BIT : Int := 0x0001
def EGL_RENDERABLE_TYPE : Int := 0x3040
def EGL_CONFORMANT : Int := 0x3042
def EGL_OPENGL_ES_BIT : Int := 0x0001
def EGL_OPENGL_ES2_BIT : Int := 0x0004
def EGL_OPENGL_ES3_BIT : Int := 0x0040
def EGL_OPENGL_BIT : Int := 0x0008
def EGL_CONFIG_CAVEAT : Int := 0x3027
def EGL_NONE : Int := 0x3038
def EGL_SLOW_CONFIG : Int := 0x3050
def EGL_RED_SIZE : Int := 0x3024
def EGL_GREEN_SIZE : Int := 0x3023
def EGL_BLUE_SIZE : Int := 0x3022
def EGL_ALPHA_SIZE : Int := 0x3021
def EGL_DEPTH_SIZE : Int := 0x3025
def EGL_STENCIL_SIZE : Int := 0x3026
def EGL_SAMPLES : Int := 0x3031
def EGL_NATIVE_VISUAL_ID : Int := 0x302E
def EGL_MIN_SWAP_INTERVAL : Int := 0x303B
def EGL_MAX_SWAP_INTERVAL : Int := 0x303C
def EGL_CONTEXT_MAJOR_VERSION : Int := 0x3098
def EGL_CONTEXT_MINOR_VERSION : Int := 0x30FB
def EGL_CONTEXT_OPENGL_DEBUG : Int := 0x31B0
def EGL_CONTEXT_OPENGL_ROBUST_ACCESS : Int := 0x31B2
def EGL_CONTEXT_OPENGL_NO_ERROR_KHR : Int := 0x31B3
def EGL_CONTEXT_OPENGL_RESET_NOTIFICATION_STRATEGY : Int := 0x31BD
def EGL_NO_RESET_NOTIFICATION : Int := 0x31BE
def EGL_LOSE_CONTEXT_ON_RESET : Int := 0x31BF
def EGL_CONTEXT_FLAGS_KHR : Int := 0x30FC
def EGL_CONTEXT_CLIENT_VERSION : Int := 0x3098
def EGL_CONTEXT_LOST : Int := 0x300E
def EGL_BAD_MATCH : Int := 0x3009
def EGL_BAD_ATTRIBUTE : Int := 0x3004
def EGL_OPENGL_API : Nat := 0x30A2
def EGL_OPENGL_ES_API : Nat := 0x30A0

/-- `EGL_NO_CONTEXT` (a null pointer). -/
def NO_CONTEXT : Nat := 0
/-- `EGL_NO_SURFACE` (a null pointer). -/
def NO_SURFACE : Nat := 0

/-- Lexicographic `>=` on `(EGLint, EGLint)` version pairs, as Rust's
derived tuple `PartialOrd` used by `egl_version >= (1, 4)` etc. -/
def vge (a b : Int × Int) : Bool := a.1 > b.1 || (a.1 = b.1 && a.2 ≥ b.2)

/-- Rust `as u8` on an `i32` value: two's-complement truncation. -/
def u8_of_int (v : Int) : Nat := (v % 256).toNat

/-- Rust `as u16` on an `i32` value: two's-complement truncation. -/
def u16_of_int (v : Int) : Nat := (v % 65536).toNat

/-- Rust `as c_int` on a `c_ulong` (used for `x11_visual_xid`): truncate to
32 bits and reinterpret as signed. -/
def i32_of_u64 (x : Nat) : Int :=
  let r : Int := (x % 4294967296 : Nat)
  if r < 2147483648 then r else r - 4294967296

/-! ### `SwapIntervalRange` and `Context` (egl/mod.rs) -/

/-- `struct SwapIntervalRange(i32, i32)` (egl/mod.rs), with the field names
used when it is destructured in `supports_vsync_mode`. -/
structure SwapIntervalRange where
  min : Int
  max : Int
deriving DecidableEq

/-- `struct Context` (egl/mod.rs).  The `parking_lot::Mutex` around the
surface only serializes access to the handle value, so the field is
modelled as the guarded value itself. -/
structure Context where
  display : Nat
  context : Nat
  surface : Option Nat
  api : Api
  pixel_format : PixelFormat
  swap_interval_range : SwapIntervalRange
deriving DecidableEq

/-- `struct ContextPrototype` (egl/mod.rs), without the borrowed
`GlAttributes` (passed separately, as the functions receive it). -/
structure ContextPrototype where
  display : Nat
  egl_version : Int × Int
  extensions : List String
  api : Api
  version : Option (Nat × Nat)
  config_id : Nat
  pixel_format : PixelFormat
  swap_interval_range : SwapIntervalRange
deriving DecidableEq

inductive SurfaceType where
  | PBuffer
  | Window
  | Surfaceless
deriving DecidableEq

/-- The abstract native EGL driver.  Each field is one native entry point
the embedded functions consult; `none` models the call reporting failure
(returning `EGL_FALSE` / a null handle). -/
structure EglBackend where
  /-- `eglBindAPI`: whether binding the given API constant succeeds. -/
  bindAPI : Nat → Bool
  /-- First `eglChooseConfig` call (null out-array): the number of matching
  configurations, or `none` if the call itself fails. -/
  chooseConfigCount : List Int → Option Int
  /-- Second `eglChooseConfig` call: the returned configuration handles, or
  `none` if the call itself fails. -/
  chooseConfigFill : List Int → Int → Option (List Nat)
  /-- `eglGetConfigAttrib config attribute`: the attribute value, `none` if
  the call fails (in which case the Rust out-variable keeps its
  initializer). -/
  getConfigAttrib : Nat → Int → Option Int
  /-- `eglCreateContext` on an attribute list: `some handle` on success,
  `none` when a null context is returned. -/
  createContextCall : List Int → Option Nat
  /-- `eglGetError` after a failing `eglCreateContext`. -/
  createContextError : Int

/-! ### `bind_and_get_api` (egl/mod.rs lines 178-227) -/

def bind_and_get_api (B : EglBackend) (opengl : GlAttributes)
    (egl_version : Int × Int) :
    Except CreationError (Option (Nat × Nat) × Api) :=
  match opengl.version with
  | .Latest =>
    if vge egl_version (1, 4) then
      if B.bindAPI EGL_OPENGL_API then .ok (none, .OpenGl)
      else if B.bindAPI EGL_OPENGL_ES_API then .ok (none, .OpenGlEs)
      else .error .OpenGlVersionNotSupported
    else .ok (none, .OpenGlEs)
  | .Specific .OpenGlEs v =>
    if vge egl_version (1, 2) && !B.bindAPI EGL_OPENGL_ES_API then
      .error .OpenGlVersionNotSupported
    else .ok (some v, .OpenGlEs)
  | .Specific .OpenGl v =>
    if !vge egl_version (1, 4) then .error .OpenGlVersionNotSupported
    else if !B.bindAPI EGL_OPENGL_API then .error .OpenGlVersionNotSupported
    else .ok (some v, .OpenGl)
  | .Specific _ _ => .error .OpenGlVersionNotSupported
  | .GlThenGles opengl_version opengles_version =>
    if vge egl_version (1, 4) then
      if B.bindAPI EGL_OPENGL_API then .ok (some opengl_version, .OpenGl)
      else if B.bindAPI EGL_OPENGL_ES_API then .ok (some opengles_version, .OpenGlEs)
      else .error .OpenGlVersionNotSupported
    else .ok (some opengles_version, .OpenGlEs)

/-! ### Attribute-descriptor construction (`choose_fbconfig`, lines 983-1101) -/

/-- `RED_SIZE` request: `color / 3` (egl/mod.rs line 1049). -/
def red_size (color : Nat) : Nat := color / 3

/-- `GREEN_SIZE` request: `color / 3 + if color % 3 != 0 { 1 } else { 0 }`
(line 1051). -/
def green_size (color : Nat) : Nat :=
  color / 3 + (if color % 3 ≠ 0 then 1 else 0)

/-- `BLUE_SIZE` request: `color / 3 + if color % 3 == 2 { 1 } else { 0 }`
(line 1053). -/
def blue_size (color : Nat) : Nat :=
  color / 3 + (if color % 3 = 2 then 1 else 0)

def surface_type_bits : SurfaceType → Int
  | .Window => EGL_WINDOW_BIT
  | .PBuffer => EGL_PBUFFER_BIT
  | .Surfaceless => 0

/-- The `RENDERABLE_TYPE` / `CONFORMANT` part of the descriptor
(lines 999-1036); `none` models the `unimplemented!()` arm. -/
def renderable_segment (egl_version : Int × Int) (api : Api)
    (version : Option (Nat × Nat)) :
    Option (Except CreationError (List Int)) :=
  match api, version with
  | .OpenGlEs, some (3, _) =>
    if !vge egl_version (1, 3) then some (.error .NoAvailablePixelFormat)
    else some (.ok [EGL_RENDERABLE_TYPE, EGL_OPENGL_ES3_BIT,
                    EGL_CONFORMANT, EGL_OPENGL_ES3_BIT])
  | .OpenGlEs, some (2, _) =>
    if !vge egl_version (1, 3) then some (.error .NoAvailablePixelFormat)
    else some (.ok [EGL_RENDERABLE_TYPE, EGL_OPENGL_ES2_BIT,
                    EGL_CONFORMANT, EGL_OPENGL_ES2_BIT])
  | .OpenGlEs, _ =>
    if vge egl_version (1, 3) then
      some (.ok [EGL_RENDERABLE_TYPE, EGL_OPENGL_ES_BIT,
                 EGL_CONFORMANT, EGL_OPENGL_ES_BIT])
    else some (.ok [])
  | .OpenGl, _ =>
    if !vge egl_version (1, 3) then some (.error .NoAvailablePixelFormat)
    else some (.ok [EGL_RENDERABLE_TYPE, EGL_OPENGL_BIT,
                    EGL_CONFORMANT, EGL_OPENGL_BIT])
  | _, _ => none

/-- `CONFIG_CAVEAT` segment (lines 1038-1045). -/
def caveat_segment (pf_reqs : PixelFormatRequirements) : List Int :=
  match pf_reqs.hardware_accelerated with
  | some hw => [EGL_CONFIG_CAVEAT, if hw then EGL_NONE else EGL_SLOW_CONFIG]
  | none => []

/-- Colour-channel segment (lines 1047-1054). -/
def color_segment (pf_reqs : PixelFormatRequirements) : List Int :=
  match pf_reqs.color_bits with
  | some c => [EGL_RED_SIZE, (red_size c : Int),
               EGL_GREEN_SIZE, (green_size c : Int),
               EGL_BLUE_SIZE, (blue_size c : Int)]
  | none => []

def alpha_segment (pf_reqs : PixelFormatRequirements) : List Int :=
  match pf_reqs.alpha_bits with
  | some a => [EGL_ALPHA_SIZE, (a : Int)]
  | none => []

def depth_segment (pf_reqs : PixelFormatRequirements) : List Int :=
  match pf_reqs.depth_bits with
  | some d => [EGL_DEPTH_SIZE, (d : Int)]
  | none => []

def stencil_segment (pf_reqs : PixelFormatRequirements) : List Int :=
  match pf_reqs.stencil_bits with
  | some s => [EGL_STENCIL_SIZE, (s : Int)]
  | none => []

def samples_segment (pf_reqs : PixelFormatRequirements) : List Int :=
  match pf_reqs.multisampling with
  | some m => [EGL_SAMPLES, (m : Int)]
  | none => []

def xid_segment (pf_reqs : PixelFormatRequirements) : List Int :=
  match pf_reqs.x11_visual_xid with
  | some x => [EGL_NATIVE_VISUAL_ID, i32_of_u64 x]
  | none => []

/-- The leading part of the descriptor: colour-buffer type (EGL >= 1.2),
surface type, renderable/conformant bits and the caveat segment
(lines 986-1045). -/
def descriptor_head (egl_version : Int × Int) (surface_type : SurfaceType)
    (rseg : List Int) (pf_reqs : PixelFormatRequirements) : List Int :=
  (if vge egl_version (1, 2) then [EGL_COLOR_BUFFER_TYPE, EGL_RGB_BUFFER] else [])
  ++ [EGL_SURFACE_TYPE, surface_type_bits surface_type]
  ++ rseg
  ++ caveat_segment pf_reqs

/-- The attribute descriptor built at the top of `choose_fbconfig`
(lines 983-1101).  `none` models a panic (`unimplemented!()` for the
`WebGl` renderable arm and for `ReleaseBehavior::None`); the two early
`return Err(..)` statements for unsupported requirements are the
`.error` results before any native call is made. -/
def build_descriptor (egl_version : Int × Int) (api : Api)
    (version : Option (Nat × Nat)) (pf_reqs : PixelFormatRequirements)
    (surface_type : SurfaceType) :
    Option (Except CreationError (List Int)) :=
  match renderable_segment egl_version api version with
  | none => none
  | some (.error e) => some (.error e)
  | some (.ok rseg) =>
    let out := descriptor_head egl_version surface_type rseg pf_reqs
      ++ color_segment pf_reqs
      ++ (alpha_segment pf_reqs ++ depth_segment pf_reqs ++ stencil_segment pf_reqs)
    if pf_reqs.double_buffer = some true then some (.error .NoAvailablePixelFormat)
    else
      let out := out ++ samples_segment pf_reqs
      if pf_reqs.stereoscopy then some (.error .NoAvailablePixelFormat)
      else
        let out := out ++ xid_segment pf_reqs
        match pf_reqs.release_behavior with
        | .None => none
        | .Flush => some (.ok (out ++ [EGL_NONE]))

/-! ### Configuration filtering and resolution (`choose_fbconfig`, lines 1103-1207) -/

/-- The vsync-interval filter (lines 1131-1160): for each configuration the
minimum and maximum swap intervals are queried; a failing query leaves the
Rust out-variable at its initializer `0` (the `let _res = ...` pattern).
The maximum is only queried when the minimum did not already exclude the
configuration. -/
def filter_configs (B : EglBackend) (desired_swap_interval : Int)
    (configs : List Nat) : List (Nat × SwapIntervalRange) :=
  configs.filterMap fun config =>
    let min_swap_interval := (B.getConfigAttrib config EGL_MIN_SWAP_INTERVAL).getD 0
    if desired_swap_interval < min_swap_interval then none
    else
      let max_swap_interval := (B.getConfigAttrib config EGL_MAX_SWAP_INTERVAL).getD 0
      if desired_swap_interval > max_swap_interval then none
      else some (config, ⟨min_swap_interval, max_swap_interval⟩)

/-- Key lookup in the filtered map (`config_ids_with_range.remove(&config_id)`,
line 1205). -/
def lookup_range : List (Nat × SwapIntervalRange) → Nat → Option SwapIntervalRange
  | [], _ => none
  | (c, r) :: rest, k => if c = k then some r else lookup_range rest k

/-- The `attrib!` macro (lines 1171-1185): a failing `eglGetConfigAttrib`
aborts selection with an `OsError`. -/
def attrib (B : EglBackend) (config : Nat) (attr : Int) :
    Except CreationError Int :=
  match B.getConfigAttrib config attr with
  | none => .error (.OsError "eglGetConfigAttrib failed")
  | some v => .ok v

/-- Building the resolved `PixelFormat` from the chosen configuration
(lines 1187-1203), re-querying every attribute in the source's field /
query order.  `as u8`/`as u16` casts and the wrapping `u8` sum for
`color_bits` are explicit. -/
def resolve_pixel_format (B : EglBackend) (config_id : Nat) :
    Except CreationError PixelFormat :=
  match attrib B config_id EGL_CONFIG_CAVEAT with
  | .error e => .error e
  | .ok caveat =>
  match attrib B config_id EGL_RED_SIZE with
  | .error e => .error e
  | .ok red =>
  match attrib B config_id EGL_BLUE_SIZE with
  | .error e => .error e
  | .ok blue =>
  match attrib B config_id EGL_GREEN_SIZE with
  | .error e => .error e
  | .ok green =>
  match attrib B config_id EGL_ALPHA_SIZE with
  | .error e => .error e
  | .ok alpha =>
  match attrib B config_id EGL_DEPTH_SIZE with
  | .error e => .error e
  | .ok depth =>
  match attrib B config_id EGL_STENCIL_SIZE with
  | .error e => .error e
  | .ok stencil =>
  match attrib B config_id EGL_SAMPLES with
  | .error e => .error e
  | .ok samples =>
    .ok { hardware_accelerated := caveat ≠ EGL_SLOW_CONFIG
          color_bits := (u8_of_int red + u8_of_int blue + u8_of_int green) % 256
          alpha_bits := u8_of_int alpha
          depth_bits := u8_of_int depth
          stencil_bits := u8_of_int stencil
          stereoscopy := false
          double_buffer := true
          multisampling :=
            if samples = 0 ∨ samples = 1 then none else some (u16_of_int samples)
          srgb := false }

/-- `choose_fbconfig` (egl/mod.rs lines 965-1207).  The tie-break
`config_selector` callback is a function argument as in the source;
`none` models a panic (descriptor-building panics, or the `.unwrap()` on
`remove` when the selector answers with a configuration that was not
offered). -/
def choose_fbconfig (B : EglBackend) (egl_version : Int × Int) (api : Api)
    (version : Option (Nat × Nat)) (pf_reqs : PixelFormatRequirements)
    (surface_type : SurfaceType) (opengl : GlAttributes)
    (config_selector : List Nat → Except Unit Nat) :
    Option (Except CreationError (Nat × PixelFormat × SwapIntervalRange)) :=
  match build_descriptor egl_version api version pf_reqs surface_type with
  | none => none
  | some (.error e) => some (.error e)
  | some (.ok descriptor) =>
    match B.chooseConfigCount descriptor with
    | none => some (.error (.OsError "eglChooseConfig failed"))
    | some num_configs =>
      if num_configs = 0 then some (.error .NoAvailablePixelFormat)
      else
        match B.chooseConfigFill descriptor num_configs with
        | none => some (.error (.OsError "eglChooseConfig failed"))
        | some config_ids =>
          let desired_swap_interval := opengl.vsync.get_swap_interval
          let config_ids_with_range :=
            filter_configs B desired_swap_interval config_ids
          let ids := config_ids_with_range.map Prod.fst
          if ids.isEmpty then some (.error .NoAvailablePixelFormat)
          else
            match config_selector ids with
            | .error _ => some (.error .NoAvailablePixelFormat)
            | .ok config_id =>
              match resolve_pixel_format B config_id with
              | .error e => some (.error e)
              | .ok desc =>
                match lookup_range config_ids_with_range config_id with
                | none => none
                | some swap_interval_range =>
                  some (.ok (config_id, desc, swap_interval_range))

/-! ### `create_context` (egl/mod.rs lines 1209-1333) -/

/-- `supports_robustness` (lines 1232-1233). -/
def supports_robustness (egl_version : Int × Int) (extensions : List String) :
    Bool :=
  vge egl_version (1, 5) || extensions.contains "EGL_EXT_create_context_robustness"

/-- The robustness arm of `create_context` on the extended-creation path
(lines 1235-1284): returns the attribute segment pushed and the resulting
`flags` accumulator (`0 ||| CONTEXT_OPENGL_ROBUST_ACCESS` written out). -/
def robust_segment (supported : Bool) (extensions : List String)
    (gl_robustness : Robustness) :
    Except CreationError (List Int × Int) :=
  match gl_robustness with
  | .NotRobust => .ok ([], 0)
  | .NoError =>
    if extensions.contains "EGL_KHR_create_context_no_error" then
      .ok ([EGL_CONTEXT_OPENGL_NO_ERROR_KHR, 1], 0)
    else .ok ([], 0)
  | .RobustNoResetNotification =>
    if supported then
      .ok ([EGL_CONTEXT_OPENGL_RESET_NOTIFICATION_STRATEGY, EGL_NO_RESET_NOTIFICATION],
           EGL_CONTEXT_OPENGL_ROBUST_ACCESS)
    else .error .RobustnessNotSupported
  | .TryRobustNoResetNotification =>
    if supported then
      .ok ([EGL_CONTEXT_OPENGL_RESET_NOTIFICATION_STRATEGY, EGL_NO_RESET_NOTIFICATION],
           EGL_CONTEXT_OPENGL_ROBUST_ACCESS)
    else .ok ([], 0)
  | .RobustLoseContextOnReset =>
    if supported then
      .ok ([EGL_CONTEXT_OPENGL_RESET_NOTIFICATION_STRATEGY, EGL_LOSE_CONTEXT_ON_RESET],
           EGL_CONTEXT_OPENGL_ROBUST_ACCESS)
    else .error .RobustnessNotSupported
  | .TryRobustLoseContextOnReset =>
    if supported then
      .ok ([EGL_CONTEXT_OPENGL_RESET_NOTIFICATION_STRATEGY, EGL_LOSE_CONTEXT_ON_RESET],
           EGL_CONTEXT_OPENGL_ROBUST_ACCESS)
    else .ok ([], 0)

/-- The full context-attribute list `create_context` assembles
(lines 1222-1319), including the two early robustness failures. -/
def context_attributes (egl_version : Int × Int) (extensions : List String)
    (api : Api) (version : Nat × Nat) (gl_debug : Bool)
    (gl_robustness : Robustness) :
    Except CreationError (List Int) :=
  if vge egl_version (1, 5) || extensions.contains "EGL_KHR_create_context" then
    match robust_segment (supports_robustness egl_version extensions) extensions
        gl_robustness with
    | .error e => .error e
    | .ok (rseg, flags) =>
      let base : List Int :=
        [EGL_CONTEXT_MAJOR_VERSION, (version.1 : Int),
         EGL_CONTEXT_MINOR_VERSION, (version.2 : Int)]
      let dseg : List Int :=
        if gl_debug && vge egl_version (1, 5) then [EGL_CONTEXT_OPENGL_DEBUG, 1]
        else []
      let fseg : List Int :=
        if flags ≠ 0 then [EGL_CONTEXT_FLAGS_KHR, flags] else []
      .ok (base ++ rseg ++ dseg ++ fseg ++ [EGL_NONE])
  else if vge egl_version (1, 3) && api == Api.OpenGlEs then
    match gl_robustness with
    | .RobustNoResetNotification => .error .RobustnessNotSupported
    | .RobustLoseContextOnReset => .error .RobustnessNotSupported
    | _ => .ok [EGL_CONTEXT_CLIENT_VERSION, (version.1 : Int), EGL_NONE]
  else .ok [EGL_NONE]

/-- `create_context` (lines 1209-1333): build the attribute list, call
`eglCreateContext`, and map a null result with `BAD_MATCH`/`BAD_ATTRIBUTE`
to `OpenGlVersionNotSupported`; any other error code panics (`none`). -/
def create_context (B : EglBackend) (egl_version : Int × Int)
    (extensions : List String) (api : Api) (version : Nat × Nat)
    (gl_debug : Bool) (gl_robustness : Robustness) :
    Option (Except CreationError Nat) :=
  match context_attributes egl_version extensions api version gl_debug
      gl_robustness with
  | .error e => some (.error e)
  | .ok attrs =>
    match B.createContextCall attrs with
    | some handle => some (.ok handle)
    | none =>
      if B.createContextError = EGL_BAD_MATCH
          || B.createContextError = EGL_BAD_ATTRIBUTE then
        some (.error .OpenGlVersionNotSupported)
      else none

/-! ### `finish_impl` (egl/mod.rs lines 846-962) -/

/-- The `Context` record `finish_impl` returns (lines 954-961). -/
def mk_finished (p : ContextPrototype) (ctx : Nat) (surface : Option Nat) :
    Context :=
  { display := p.display
    context := ctx
    surface := surface
    api := p.api
    pixel_format := p.pixel_format
    swap_interval_range := p.swap_interval_range }

/-- The tail of `finish_impl` after a context was created (lines 937-961):
with a surface, a `MakeCurrentGuard` is taken (failure maps to
`CreationError::OsError`) and `eglSwapInterval` is applied (failure
panics, modelled as `none`). -/
def finish_epilogue (guardOk swapIntervalOk : Bool) (p : ContextPrototype)
    (ctx : Nat) (surface : Option Nat) :
    Option (Except CreationError Context) :=
  match surface with
  | some _ =>
    if !guardOk then some (.error (.OsError "eglMakeCurrent failed"))
    else if !swapIntervalOk then none
    else some (.ok (mk_finished p ctx surface))
  | none => some (.ok (mk_finished p ctx surface))

/-- `finish_impl` (lines 846-962).  The first component is the ordered list
of `(api, version)` pairs for which `create_context` was attempted; the
nested `if let Ok(..)` cascade for a pinned / unpinned version is
translated arm by arm.  `guardOk` and `swapIntervalOk` stand for the
outcomes of the two epilogue native calls. -/
def finish_impl (B : EglBackend) (guardOk swapIntervalOk : Bool)
    (opengl : GlAttributes) (p : ContextPrototype) (surface : Option Nat) :
    List (Api × Nat × Nat) × Option (Except CreationError Context) :=
  let create := fun (v : Nat × Nat) =>
    create_context B p.egl_version p.extensions p.api v opengl.debug
      opengl.robustness
  match p.version with
  | some v =>
    ([(p.api, v)],
     match create v with
     | none => none
     | some (.error e) => some (.error e)
     | some (.ok ctx) => finish_epilogue guardOk swapIntervalOk p ctx surface)
  | none =>
    if p.api == Api.OpenGlEs then
      match create (2, 0) with
      | none => ([(p.api, (2, 0))], none)
      | some (.ok ctx) =>
        ([(p.api, (2, 0))], finish_epilogue guardOk swapIntervalOk p ctx surface)
      | some (.error _) =>
        match create (1, 0) with
        | none => ([(p.api, (2, 0)), (p.api, (1, 0))], none)
        | some (.ok ctx) =>
          ([(p.api, (2, 0)), (p.api, (1, 0))],
           finish_epilogue guardOk swapIntervalOk p ctx surface)
        | some (.error _) =>
          ([(p.api, (2, 0)), (p.api, (1, 0))],
           some (.error .OpenGlVersionNotSupported))
    else
      match create (3, 2) with
      | none => ([(p.api, (3, 2))], none)
      | some (.ok ctx) =>
        ([(p.api, (3, 2))], finish_epilogue guardOk swapIntervalOk p ctx surface)
      | some (.error _) =>
        match create (3, 1) with
        | none => ([(p.api, (3, 2)), (p.api, (3, 1))], none)
        | some (.ok ctx) =>
          ([(p.api, (3, 2)), (p.api, (3, 1))],
           finish_epilogue guardOk swapIntervalOk p ctx surface)
        | some (.error _) =>
          match create (1, 0) with
          | none => ([(p.api, (3, 2)), (p.api, (3, 1)), (p.api, (1, 0))], none)
          | some (.ok ctx) =>
            ([(p.api, (3, 2)), (p.api, (3, 1)), (p.api, (1, 0))],
             finish_epilogue guardOk swapIntervalOk p ctx surface)
          | some (.error _) =>
            ([(p.api, (3, 2)), (p.api, (3, 1)), (p.api, (1, 0))],
             some (.error .OpenGlVersionNotSupported))

/-! ### Current/not-current lifecycle (egl/mod.rs lines 440-501) -/

/-- The thread's current (context, draw surface, read surface) triple as
the native backend tracks it (`eglGetCurrentContext`,
`eglGetCurrentSurface`). -/
structure CurrentState where
  ctx : Nat
  draw : Nat
  read : Nat
deriving DecidableEq

/-- `check_make_current` (lines 440-452): `ret = some false` is a failing
`eglMakeCurrent` whose `eglGetError` is inspected; an unexpected code
panics (`none`); `ret = none` is the no-call path. -/
def check_make_current (ret : Option Bool) (errCode : Int) :
    Option (Except ContextError Unit) :=
  match ret with
  | some false =>
    if errCode = EGL_CONTEXT_LOST then some (.error .ContextLost) else none
  | _ => some (.ok ())

/-- `make_current` (lines 454-460).  `mcOk` is the backend's
`eglMakeCurrent` return; on success the thread's current triple becomes
this context with its surface (or `NO_SURFACE`) as draw and read.  The
context value is returned unchanged (the method takes `&self` and writes
nothing). -/
def make_current (mcOk : Bool) (errCode : Int) (s : CurrentState)
    (c : Context) :
    Option (Except ContextError Unit × CurrentState × Context) :=
  let surface := c.surface.getD NO_SURFACE
  match check_make_current (some mcOk) errCode with
  | none => none
  | some (.error e) => some (.error e, s, c)
  | some (.ok _) =>
    some (.ok (), { ctx := c.context, draw := surface, read := surface }, c)

/-- `make_not_current` (lines 462-484): only if this context's surface is
the current draw/read surface, or the context itself is current, is
`eglMakeCurrent(NO_SURFACE, NO_SURFACE, NO_CONTEXT)` issued; otherwise no
native call is made and the result is `Ok`. -/
def make_not_current (mcOk : Bool) (errCode : Int) (s : CurrentState)
    (c : Context) :
    Option (Except ContextError Unit × CurrentState × Context) :=
  let surface_eq :=
    match c.surface with
    | some surf => s.draw == surf || s.read == surf
    | none => false
  if surface_eq || s.ctx == c.context then
    match check_make_current (some mcOk) errCode with
    | none => none
    | some (.error e) => some (.error e, s, c)
    | some (.ok _) =>
      some (.ok (), { ctx := NO_CONTEXT, draw := NO_SURFACE, read := NO_SURFACE }, c)
  else
    match check_make_current none errCode with
    | none => none
    | some (.error e) => some (.error e, s, c)
    | some (.ok _) => some (.ok (), s, c)

/-- `is_current` (lines 486-490): `eglGetCurrentContext() == self.context`. -/
def is_current (s : CurrentState) (c : Context) : Bool :=
  s.ctx == c.context

/-- `get_pixel_format` (lines 611-614). -/
def get_pixel_format (c : Context) : PixelFormat :=
  c.pixel_format

/-- `supports_vsync_mode` (lines 497-501). -/
def supports_vsync_mode (c : Context) (mode : VSyncMode) : Bool :=
  let swap_interval := mode.get_swap_interval
  swap_interval ≥ c.swap_interval_range.min
    && swap_interval ≤ c.swap_interval_range.max

/-! ### Backend call traces for `swap_buffers` and `Drop` -/

/-- One native call, for call-ordering statements. -/
inductive BackendCall where
  | makeCurrentCall (display draw read ctx : Nat)
  | glFinishCall
  | destroyContextCall (display ctx : Nat)
  | destroySurfaceCall (display surface : Nat)
  | swapBuffersCall (display surface : Nat)
  | terminateCall (display : Nat)
deriving DecidableEq

/-- `swap_buffers` (lines 538-558): the surface mutex is read
(`.unwrap()` panics for a surfaceless context, modelled by `none` in the
second component with no call made); the `NO_SURFACE` sentinel short-
circuits to `ContextError::ContextLost` with no native swap; otherwise
`eglSwapBuffers` is issued (`swapOk` its return, `errCode` the
`eglGetError` value consulted on failure; an unexpected code panics). -/
def swap_buffers (swapOk : Bool) (errCode : Int) (c : Context) :
    List BackendCall × Option (Except ContextError Unit) :=
  match c.surface with
  | none => ([], none)
  | some surface =>
    if surface == NO_SURFACE then ([], some (.error .ContextLost))
    else
      let calls := [BackendCall.swapBuffersCall c.display surface]
      if swapOk then (calls, some (.ok ()))
      else if errCode = EGL_CONTEXT_LOST then (calls, some (.error .ContextLost))
      else (calls, none)

/-- The (display, draw, read, context) tuple current on the thread before a
`MakeCurrentGuard` is constructed. -/
structure PriorTuple where
  display : Nat
  draw : Nat
  read : Nat
  context : Nat
deriving DecidableEq

/-- Modelled from the spec: the restore step of the `MakeCurrentGuard`
drop.  The file src/glutin/src/api/egl/make_current_guard.rs is declared
(`mod make_current_guard;`) but absent from src/, so the ActivationGuard
contract of spec section 4.3 is used: on exit the guard restores the
previously-current tuple, unless `if_any_same_then_invalidate` marked the
restoration target as about to be destroyed. -/
def guard_restore_calls (prior : PriorTuple) (invalidated : Bool) :
    List BackendCall :=
  if invalidated then []
  else [.makeCurrentCall prior.display prior.draw prior.read prior.context]

/-- Modelled from the spec (section 4.3) together with `Drop for Context`
(egl/mod.rs lines 642-724): the ordered native calls issued by context
teardown.  `mcOk` is the guard-construction `eglMakeCurrent` outcome (on
failure the `.unwrap()` panics: `none`).  The guard construction makes
the context current with its surface, then `glFinish` runs, the context
and surface are destroyed, and on scope exit the guard restores the prior
tuple unless `if_any_same_then_invalidate(surface, surface, context)`
matched it.  `eglTerminate` is commented out in the source and never
called. -/
def drop_trace (mcOk : Bool) (prior : PriorTuple) (c : Context) :
    Option (List BackendCall) :=
  let surface := c.surface.getD NO_SURFACE
  if mcOk then
    let invalidated :=
      prior.draw == surface || prior.read == surface || prior.context == c.context
    some ([.makeCurrentCall c.display surface surface c.context,
           .glFinishCall,
           .destroyContextCall c.display c.context,
           .destroySurfaceCall c.display surface]
          ++ guard_restore_calls prior invalidated)
  else none

/-! ### Helper lemmas -/

theorem mem_lookup_range {l : List (Nat × SwapIntervalRange)} {k : Nat}
    {r : SwapIntervalRange} (h : lookup_range l k = some r) : (k, r) ∈ l := by
  induction l with
  | nil => simp [lookup_range] at h
  | cons hd tl ih =>
    obtain ⟨c, r'⟩ := hd
    unfold lookup_range at h
    split at h
    · rename_i hc
      injection h with h
      subst hc h
      exact List.mem_cons_self _ _
    · exact List.mem_cons_of_mem _ (ih h)

theorem filter_configs_bounds {B : EglBackend} {d : Int} {cs : List Nat}
    {k : Nat} {r : SwapIntervalRange} (h : (k, r) ∈ filter_configs B d cs) :
    r.min ≤ d ∧ d ≤ r.max := by
  unfold filter_configs at h
  obtain ⟨c, -, hc⟩ := List.mem_filterMap.mp h
  dsimp only at hc
  split at hc
  · exact absurd hc (by simp)
  · split at hc
    · exact absurd hc (by simp)
    · rename_i h1 h2
      injection hc with hc
      cases hc
      exact ⟨Int.not_lt.mp h1, Int.not_lt.mp h2⟩

theorem renderable_cases (egl_version : Int × Int) (api : Api)
    (version : Option (Nat × Nat)) (hapi : api ≠ Api.WebGl) :
    renderable_segment egl_version api version
      = some (.error .NoAvailablePixelFormat) ∨
    ∃ l, renderable_segment egl_version api version = some (.ok l) := by
  cases api with
  | WebGl => exact absurd rfl hapi
  | OpenGl =>
    unfold renderable_segment
    split <;> (try split) <;>
      first | exact Or.inl rfl | exact Or.inr ⟨_, rfl⟩
  | OpenGlEs =>
    unfold renderable_segment
    split <;> (try split) <;>
      first | exact Or.inl rfl | exact Or.inr ⟨_, rfl⟩ | simp_all

/-! ### Claim C7 -/

/-- Claim C7: with `double_buffer = Some(true)` or `stereoscopy = true`,
configuration selection fails with `NoAvailablePixelFormat` already while
building the attribute descriptor (a computation that consults no backend
oracle), so the same error results for every backend and every tie-break
selector, before any configuration query. -/
theorem unsupported_reqs_fail_fast (egl_version : Int × Int) (api : Api)
    (version : Option (Nat × Nat)) (pf_reqs : PixelFormatRequirements)
    (st : SurfaceType) (hapi : api ≠ Api.WebGl)
    (hreq : pf_reqs.double_buffer = some true ∨ pf_reqs.stereoscopy = true) :
    build_descriptor egl_version api version pf_reqs st
      = some (.error .NoAvailablePixelFormat) ∧
    ∀ (B : EglBackend) (opengl : GlAttributes)
      (sel : List Nat → Except Unit Nat),
      choose_fbconfig B egl_version api version pf_reqs st opengl sel
        = some (.error .NoAvailablePixelFormat) := by
  have hb : build_descriptor egl_version api version pf_reqs st
      = some (.error .NoAvailablePixelFormat) := by
    unfold build_descriptor
    rcases renderable_cases egl_version api version hapi with h | ⟨l, h⟩ <;> rw [h]
    rcases hreq with h1 | h1
    · simp [h1]
    · by_cases h2 : pf_reqs.double_buffer = some true <;> simp [h1, h2]
  refine ⟨hb, fun B opengl sel => ?_⟩
  unfold choose_fbconfig
  rw [hb]

/-- Witness for C7 at a concrete input. -/
theorem unsupported_reqs_fail_fast_witness :
    build_descriptor (1, 4) Api.OpenGlEs none
      { PixelFormatRequirements.default with stereoscopy := true } .Window
      = some (.error .NoAvailablePixelFormat) ∧
    ∀ (B : EglBackend) (opengl : GlAttributes)
      (sel : List Nat → Except Unit Nat),
      choose_fbconfig B (1, 4) Api.OpenGlEs none
        { PixelFormatRequirements.default with stereoscopy := true } .Window
        opengl sel = some (.error .NoAvailablePixelFormat) :=
  unsupported_reqs_fail_fast (1, 4) Api.OpenGlEs none _ .Window
    (by simp) (Or.inr rfl)

/-! ### Claim C8 -/

/-- Claim C8: when `color_bits = Some(c)` the descriptor requests channel
sizes `red_size c`, `green_size c`, `blue_size c` that sum to exactly `c`,
split evenly (each within one bit of the others) with any remainder bits
going to the later channels, never the first; and those three requests
appear verbatim in the built attribute list. -/
theorem color_bits_split (c : Nat) (egl_version : Int × Int) (api : Api)
    (version : Option (Nat × Nat)) (pf_reqs : PixelFormatRequirements)
    (st : SurfaceType) (desc : List Int)
    (hc : pf_reqs.color_bits = some c)
    (hd : build_descriptor egl_version api version pf_reqs st
      = some (.ok desc)) :
    red_size c + green_size c + blue_size c = c ∧
    red_size c ≤ green_size c ∧ red_size c ≤ blue_size c ∧
    green_size c ≤ red_size c + 1 ∧ blue_size c ≤ red_size c + 1 ∧
    ∃ l₁ l₂, desc = l₁ ++ [EGL_RED_SIZE, (red_size c : Int),
      EGL_GREEN_SIZE, (green_size c : Int),
      EGL_BLUE_SIZE, (blue_size c : Int)] ++ l₂ := by
  refine ⟨?_, ?_, ?_, ?_, ?_, ?_⟩
  · simp only [red_size, green_size, blue_size]; split_ifs <;> omega
  · simp only [red_size, green_size, blue_size]; split_ifs <;> omega
  · simp only [red_size, green_size, blue_size]; split_ifs <;> omega
  · simp only [red_size, green_size, blue_size]; split_ifs <;> omega
  · simp only [red_size, green_size, blue_size]; split_ifs <;> omega
  · unfold build_descriptor at hd
    split at hd
    · exact absurd hd (by simp)
    · exact absurd hd (by simp)
    · rename_i rseg heq
      split at hd
      · exact absurd hd (by simp)
      · split at hd
        · exact absurd hd (by simp)
        · split at hd
          · exact absurd hd (by simp)
          · simp only [Option.some.injEq, Except.ok.injEq] at hd
            refine ⟨descriptor_head egl_version st rseg pf_reqs,
              alpha_segment pf_reqs ++ depth_segment pf_reqs
                ++ stencil_segment pf_reqs ++ samples_segment pf_reqs
                ++ xid_segment pf_reqs ++ [EGL_NONE], ?_⟩
            rw [← hd]
            simp [color_segment, hc, List.append_assoc]

/-- Witness for C8: the default requirements request 24 colour bits; the
descriptor built for them on EGL 1.4 / GLES. -/
def c8_desc : List Int :=
  [12351, 12430, 12339, 4, 12352, 1, 12354, 1, 12327, 12344, 12324, 8, 12323, 8,
   12322, 8, 12321, 8, 12325, 24, 12326, 8, 12344]

theorem color_bits_split_witness :
    red_size 24 + green_size 24 + blue_size 24 = 24 ∧
    red_size 24 ≤ green_size 24 ∧ red_size 24 ≤ blue_size 24 ∧
    green_size 24 ≤ red_size 24 + 1 ∧ blue_size 24 ≤ red_size 24 + 1 ∧
    ∃ l₁ l₂, c8_desc = l₁ ++ [EGL_RED_SIZE, (red_size 24 : Int),
      EGL_GREEN_SIZE, (green_size 24 : Int),
      EGL_BLUE_SIZE, (blue_size 24 : Int)] ++ l₂ :=
  color_bits_split 24 (1, 4) Api.OpenGlEs none PixelFormatRequirements.default
    .Window c8_desc rfl rfl

/-! ### Concrete fixtures used by witnesses and counterexamples -/

/-- A concrete driver: one configuration (handle 7) matching every
descriptor, with swap-interval range `[0, 1]`, 8/8/8/8 colour channels,
24 depth bits, 8 stencil bits, no caveat, and `SAMPLES = 0`. -/
def test_backend : EglBackend :=
  { bindAPI := fun _ => true
    chooseConfigCount := fun _ => some 1
    chooseConfigFill := fun _ _ => some [7]
    getConfigAttrib := fun _ a =>
      if a = EGL_MIN_SWAP_INTERVAL then some 0
      else if a = EGL_MAX_SWAP_INTERVAL then some 1
      else if a = EGL_CONFIG_CAVEAT then some EGL_NONE
      else if a = EGL_RED_SIZE then some 8
      else if a = EGL_BLUE_SIZE then some 8
      else if a = EGL_GREEN_SIZE then some 8
      else if a = EGL_ALPHA_SIZE then some 8
      else if a = EGL_DEPTH_SIZE then some 24
      else if a = EGL_STENCIL_SIZE then some 8
      else if a = EGL_SAMPLES then some 0
      else none
    createContextCall := fun _ => some 1
    createContextError := 0 }

/-- Requirements asking for `multisampling = Some(0)` ("multisampling must
not be enabled") and nothing else. -/
def test_pf_reqs : PixelFormatRequirements :=
  { hardware_accelerated := none
    color_bits := none
    float_color_buffer := false
    alpha_bits := none
    depth_bits := none
    stencil_bits := none
    double_buffer := none
    multisampling := some 0
    stereoscopy := false
    srgb := false
    release_behavior := .Flush
    x11_visual_xid := none }

/-- Tie-break selector answering with configuration 7. -/
def test_sel : List Nat → Except Unit Nat := fun _ => .ok 7

/-- The `PixelFormat` `test_backend` resolves for configuration 7. -/
def test_resolved : PixelFormat :=
  { hardware_accelerated := true
    color_bits := 24
    alpha_bits := 8
    depth_bits := 24
    stencil_bits := 8
    stereoscopy := false
    double_buffer := true
    multisampling := none
    srgb := false }

/-! ### `finish_impl` inversion lemmas -/

theorem finish_epilogue_ok {guardOk swapOk : Bool} {p : ContextPrototype}
    {ctx : Nat} {surface : Option Nat} {c : Context}
    (h : finish_epilogue guardOk swapOk p ctx surface = some (.ok c)) :
    c = mk_finished p ctx surface := by
  unfold finish_epilogue at h
  split at h
  · split at h
    · exact absurd h (by simp)
    · split at h
      · exact absurd h (by simp)
      · simp only [Option.some.injEq, Except.ok.injEq] at h
        exact h.symm
  · simp only [Option.some.injEq, Except.ok.injEq] at h
    exact h.symm

theorem finish_impl_ok_range {B : EglBackend} {guardOk swapOk : Bool}
    {opengl : GlAttributes} {p : ContextPrototype} {surface : Option Nat}
    {tr : List (Api × Nat × Nat)} {c : Context}
    (h : finish_impl B guardOk swapOk opengl p surface = (tr, some (.ok c))) :
    c.swap_interval_range = p.swap_interval_range := by
  unfold finish_impl at h
  dsimp only at h
  split at h
  · simp only [Prod.mk.injEq] at h
    obtain ⟨-, h⟩ := h
    split at h
    · exact absurd h (by simp)
    · exact absurd h (by simp)
    · rw [finish_epilogue_ok h]; rfl
  · split at h <;>
      (repeat' split at h) <;>
      simp only [Prod.mk.injEq] at h <;>
      first
        | exact absurd h.2 (by simp)
        | (rw [finish_epilogue_ok h.2]; rfl)

/-! ### Claim C1 -/

/-- Claim C1: whenever `choose_fbconfig` succeeds, the returned
`SwapIntervalRange` brackets the swap interval of the vsync mode in the
`GlAttributes` used during selection (so in particular `min <= max`),
and any `Context` finished from a prototype carrying that range keeps it
unchanged. -/
theorem chosen_swap_interval_range_bounds
    (B : EglBackend) (egl_version : Int × Int) (api : Api)
    (version : Option (Nat × Nat)) (pf_reqs : PixelFormatRequirements)
    (st : SurfaceType) (opengl : GlAttributes)
    (sel : List Nat → Except Unit Nat) (cfg : Nat) (pf : PixelFormat)
    (r : SwapIntervalRange)
    (h : choose_fbconfig B egl_version api version pf_reqs st opengl sel
      = some (.ok (cfg, pf, r))) :
    r.min ≤ opengl.vsync.get_swap_interval ∧
    opengl.vsync.get_swap_interval ≤ r.max ∧ r.min ≤ r.max ∧
    ∀ (guardOk swapOk : Bool) (p : ContextPrototype) (surface : Option Nat)
      (tr : List (Api × Nat × Nat)) (c : Context),
      p.swap_interval_range = r →
      finish_impl B guardOk swapOk opengl p surface = (tr, some (.ok c)) →
      c.swap_interval_range = r := by
  unfold choose_fbconfig at h
  dsimp only at h
  repeat' split at h
  all_goals cases h
  rename_i rr hlook
  have hb := filter_configs_bounds (mem_lookup_range hlook)
  refine ⟨hb.1, hb.2, le_trans hb.1 hb.2, ?_⟩
  intro guardOk swapOk p surface tr c hp hf
  rw [finish_impl_ok_range hf, hp]

/-- Witness for C1 at `test_backend`. -/
theorem chosen_swap_interval_range_bounds_witness :
    (⟨0, 1⟩ : SwapIntervalRange).min ≤ GlAttributes.default.vsync.get_swap_interval ∧
    GlAttributes.default.vsync.get_swap_interval ≤ (⟨0, 1⟩ : SwapIntervalRange).max ∧
    (⟨0, 1⟩ : SwapIntervalRange).min ≤ (⟨0, 1⟩ : SwapIntervalRange).max ∧
    ∀ (guardOk swapOk : Bool) (p : ContextPrototype) (surface : Option Nat)
      (tr : List (Api × Nat × Nat)) (c : Context),
      p.swap_interval_range = ⟨0, 1⟩ →
      finish_impl test_backend guardOk swapOk GlAttributes.default p surface
        = (tr, some (.ok c)) →
      c.swap_interval_range = ⟨0, 1⟩ :=
  chosen_swap_interval_range_bounds test_backend (1, 4) .OpenGlEs none
    test_pf_reqs .Window GlAttributes.default test_sel 7 test_resolved ⟨0, 1⟩
    rfl

/-! ### Claim C2 -/

/-- Claim C2 counterexample: requesting `multisampling = Some(0)` against a
driver whose chosen configuration reports `SAMPLES = 0`, selection
succeeds and the resolved `PixelFormat.multisampling` is `None`, not
`Some(0)` — the claimed dichotomy (exactly `Some(n)` or
no-available-pixel-format) fails. -/
theorem multisampling_request_not_exact_counterexample :
    test_pf_reqs.multisampling = some 0 ∧
    choose_fbconfig test_backend (1, 4) Api.OpenGlEs none test_pf_reqs .Window
      GlAttributes.default test_sel = some (.ok (7, test_resolved, ⟨0, 1⟩)) ∧
    test_resolved.multisampling ≠ some 0 :=
  ⟨rfl, rfl, by simp [test_resolved]⟩

theorem attrib_ok {B : EglBackend} {cfg : Nat} {attr : Int} {v : Int}
    (h : attrib B cfg attr = .ok v) :
    B.getConfigAttrib cfg attr = some v := by
  unfold attrib at h
  split at h
  · exact absurd h (by simp)
  · rename_i heq
    injection h with h
    exact h ▸ heq

theorem resolve_ok_samples {B : EglBackend} {cfg : Nat} {pf : PixelFormat}
    (h : resolve_pixel_format B cfg = .ok pf) :
    ∃ a, B.getConfigAttrib cfg EGL_SAMPLES = some a ∧
      pf.multisampling = if a = 0 ∨ a = 1 then none
        else some (u16_of_int a) := by
  unfold resolve_pixel_format at h
  repeat' split at h
  all_goals cases h
  all_goals refine ⟨_, attrib_ok (by assumption), ?_⟩
  all_goals first
    | exact (if_pos (by assumption)).symm
    | exact (if_neg (by assumption)).symm

/-- Claim C2 (amended): the requested multisampling count `n` is passed into
the selection attribute list unmodified (never rounded), and on success
the resolved `PixelFormat.multisampling` is the driver-reported `SAMPLES`
value of the chosen configuration — `None` when the driver reports 0 or 1,
`Some(reported)` otherwise, which equals `Some(n)` exactly when the driver
reports `n >= 2`. -/
theorem multisampling_passthrough_and_resolution
    (B : EglBackend) (egl_version : Int × Int) (api : Api)
    (version : Option (Nat × Nat)) (pf_reqs : PixelFormatRequirements)
    (st : SurfaceType) (opengl : GlAttributes)
    (sel : List Nat → Except Unit Nat) (n : Nat)
    (hreq : pf_reqs.multisampling = some n) :
    (∀ desc, build_descriptor egl_version api version pf_reqs st
        = some (.ok desc) →
      ∃ l₁ l₂, desc = l₁ ++ [EGL_SAMPLES, (n : Int)] ++ l₂) ∧
    (∀ cfg pf r,
      choose_fbconfig B egl_version api version pf_reqs st opengl sel
          = some (.ok (cfg, pf, r)) →
      ∃ a, B.getConfigAttrib cfg EGL_SAMPLES = some a ∧
        pf.multisampling = if a = 0 ∨ a = 1 then none
          else some (u16_of_int a)) := by
  constructor
  · intro desc hd
    unfold build_descriptor at hd
    split at hd
    · exact absurd hd (by simp)
    · exact absurd hd (by simp)
    · rename_i rseg heq
      split at hd
      · exact absurd hd (by simp)
      · split at hd
        · exact absurd hd (by simp)
        · split at hd
          · exact absurd hd (by simp)
          · simp only [Option.some.injEq, Except.ok.injEq] at hd
            refine ⟨descriptor_head egl_version st rseg pf_reqs
                ++ color_segment pf_reqs ++ alpha_segment pf_reqs
                ++ depth_segment pf_reqs ++ stencil_segment pf_reqs,
              xid_segment pf_reqs ++ [EGL_NONE], ?_⟩
            rw [← hd]
            simp [samples_segment, hreq, List.append_assoc]
  · intro cfg pf r h
    unfold choose_fbconfig at h
    dsimp only at h
    repeat' split at h
    all_goals cases h
    exact resolve_ok_samples (by assumption)

/-- Witness for the amended C2 at `test_backend` (`n = 0`). -/
theorem multisampling_passthrough_and_resolution_witness :
    (∀ desc, build_descriptor (1, 4) Api.OpenGlEs none test_pf_reqs .Window
        = some (.ok desc) →
      ∃ l₁ l₂, desc = l₁ ++ [EGL_SAMPLES, ((0 : Nat) : Int)] ++ l₂) ∧
    (∀ cfg pf r,
      choose_fbconfig test_backend (1, 4) Api.OpenGlEs none test_pf_reqs
          .Window GlAttributes.default test_sel = some (.ok (cfg, pf, r)) →
      ∃ a, test_backend.getConfigAttrib cfg EGL_SAMPLES = some a ∧
        pf.multisampling = if a = 0 ∨ a = 1 then none
          else some (u16_of_int a)) :=
  multisampling_passthrough_and_resolution test_backend (1, 4) .OpenGlEs none
    test_pf_reqs .Window GlAttributes.default test_sel 0 rfl

/-! ### Claim C3 -/

/-- Claim C3: with `GlRequest::Latest` on an EGL backend older than 1.4,
`bind_and_get_api` returns `Ok((None, OpenGlEs))` (embedded API, no pinned
version), and `finish_impl` for a prototype carrying that outcome attempts
only the embedded candidates GLES 2.0 then GLES 1.0 — never a desktop
OpenGL context. -/
theorem latest_legacy_egl_embedded_only
    (B : EglBackend) (opengl : GlAttributes) (egl_version : Int × Int)
    (hv : opengl.version = .Latest) (hev : vge egl_version (1, 4) = false)
    (guardOk swapOk : Bool) (p : ContextPrototype) (surface : Option Nat)
    (hapi : p.api = .OpenGlEs) (hver : p.version = none) :
    bind_and_get_api B opengl egl_version = .ok (none, .OpenGlEs) ∧
    ((finish_impl B guardOk swapOk opengl p surface).1
        = [(.OpenGlEs, (2, 0))] ∨
     (finish_impl B guardOk swapOk opengl p surface).1
        = [(.OpenGlEs, (2, 0)), (.OpenGlEs, (1, 0))]) := by
  constructor
  · unfold bind_and_get_api
    rw [hv]
    simp [hev]
  · unfold finish_impl
    dsimp only
    rw [hver, hapi]
    simp only [beq_self_eq_true, if_true]
    split
    · exact Or.inl rfl
    · exact Or.inl rfl
    · split
      · exact Or.inr rfl
      · exact Or.inr rfl
      · exact Or.inr rfl

/-- Witness for C3: EGL 1.3, `Latest`, a GLES prototype with no pinned
version. -/
theorem latest_legacy_egl_embedded_only_witness :
    bind_and_get_api test_backend GlAttributes.default (1, 3)
      = .ok (none, .OpenGlEs) ∧
    ((finish_impl test_backend true true GlAttributes.default
        { display := 1, egl_version := (1, 3), extensions := [],
          api := .OpenGlEs, version := none, config_id := 7,
          pixel_format := test_resolved, swap_interval_range := ⟨0, 1⟩ }
        (some 5)).1 = [(.OpenGlEs, (2, 0))] ∨
     (finish_impl test_backend true true GlAttributes.default
        { display := 1, egl_version := (1, 3), extensions := [],
          api := .OpenGlEs, version := none, config_id := 7,
          pixel_format := test_resolved, swap_interval_range := ⟨0, 1⟩ }
        (some 5)).1 = [(.OpenGlEs, (2, 0)), (.OpenGlEs, (1, 0))]) :=
  latest_legacy_egl_embedded_only test_backend GlAttributes.default (1, 3)
    rfl rfl true true _ (some 5) rfl rfl

/-! ### Claim C4 -/

/-- Claim C4: tearing down a `Context` with an attached surface issues, in
order, make-current (with the context's own surface), `glFinish`,
destroy-context, destroy-surface — for any prior current tuple, i.e. also
when the context was not current — and no display terminate call appears
anywhere in the teardown trace (the guard's restore step, when the prior
tuple survives invalidation, follows the four calls). -/
theorem drop_call_order (prior : PriorTuple) (c : Context) (s : Nat)
    (hs : c.surface = some s) :
    ∃ tr, drop_trace true prior c = some tr ∧
      tr.take 4 = [.makeCurrentCall c.display s s c.context, .glFinishCall,
                   .destroyContextCall c.display c.context,
                   .destroySurfaceCall c.display s] ∧
      ∀ d, BackendCall.terminateCall d ∉ tr := by
  refine ⟨_, rfl, ?_, ?_⟩
  · simp [drop_trace, hs, List.take_succ_cons]
  · intro d
    simp only [drop_trace, hs, Option.getD_some, if_true, guard_restore_calls]
    split <;> simp

/-- Witness for C4 with a context that was not current beforehand (prior
tuple entirely different from the destroyed one). -/
theorem drop_call_order_witness :
    ∃ tr, drop_trace true ⟨9, 8, 8, 4⟩
        { display := 1, context := 2, surface := some 3, api := .OpenGlEs,
          pixel_format := test_resolved, swap_interval_range := ⟨0, 1⟩ }
        = some tr ∧
      tr.take 4 = [.makeCurrentCall 1 3 3 2, .glFinishCall,
                   .destroyContextCall 1 2, .destroySurfaceCall 1 3] ∧
      ∀ d, BackendCall.terminateCall d ∉ tr :=
  drop_call_order ⟨9, 8, 8, 4⟩
    { display := 1, context := 2, surface := some 3, api := .OpenGlEs,
      pixel_format := test_resolved, swap_interval_range := ⟨0, 1⟩ } 3 rfl

/-! ### Claim C5 -/

/-- Claim C5 counterexample: on EGL 1.4 with no extensions the backend
lacks robustness support, yet `create_context` with the required variant
`RobustNoResetNotification` for a desktop API does not fail with
`RobustnessNotSupported` — the robustness request is silently ignored on
the legacy non-GLES path. -/
theorem robustness_required_ignored_counterexample :
    supports_robustness (1, 4) [] = false ∧
    create_context test_backend (1, 4) [] Api.OpenGl (3, 3) false
      .RobustNoResetNotification = some (.ok 1) ∧
    create_context test_backend (1, 4) [] Api.OpenGl (3, 3) false
      .RobustNoResetNotification ≠ some (.error .RobustnessNotSupported) :=
  ⟨rfl, rfl, by simp [create_context, context_attributes, vge,
    supports_robustness, robust_segment, test_backend]⟩

/-- Claim C5 (amended): the robustness policy is honoured exactly on the two
creation paths that inspect it.  (a) On the extended path (EGL >= 1.5 or
EGL_KHR_create_context) a required robustness variant fails with
`RobustnessNotSupported` when robustness is unsupported; (b) on the legacy
GLES path (EGL >= 1.3, GLES API, no extended creation) the required
variants always fail with `RobustnessNotSupported`; (c) the two Try
variants never produce `RobustnessNotSupported` on any path; (d) on the
extended path with robustness supported, the four robust variants map to a
reset-notification-strategy creation attribute.  On the remaining legacy
path the policy is ignored entirely (the counterexample). -/
theorem robustness_policy_mapping :
    (∀ (ev : Int × Int) (exts : List String) (api : Api) (v : Nat × Nat)
       (dbg : Bool) (r : Robustness),
      (vge ev (1, 5) || exts.contains "EGL_KHR_create_context") = true →
      supports_robustness ev exts = false →
      (r = .RobustNoResetNotification ∨ r = .RobustLoseContextOnReset) →
      context_attributes ev exts api v dbg r = .error .RobustnessNotSupported) ∧
    (∀ (ev : Int × Int) (exts : List String) (api : Api) (v : Nat × Nat)
       (dbg : Bool) (r : Robustness),
      (vge ev (1, 5) || exts.contains "EGL_KHR_create_context") = false →
      (vge ev (1, 3) && api == Api.OpenGlEs) = true →
      (r = .RobustNoResetNotification ∨ r = .RobustLoseContextOnReset) →
      context_attributes ev exts api v dbg r = .error .RobustnessNotSupported) ∧
    (∀ (B : EglBackend) (ev : Int × Int) (exts : List String) (api : Api)
       (v : Nat × Nat) (dbg : Bool) (r : Robustness),
      (r = .TryRobustNoResetNotification ∨ r = .TryRobustLoseContextOnReset) →
      create_context B ev exts api v dbg r
        ≠ some (.error .RobustnessNotSupported)) ∧
    (∀ (ev : Int × Int) (exts : List String) (api : Api) (v : Nat × Nat)
       (dbg : Bool) (r : Robustness),
      (vge ev (1, 5) || exts.contains "EGL_KHR_create_context") = true →
      supports_robustness ev exts = true →
      (r = .RobustNoResetNotification ∨ r = .TryRobustNoResetNotification ∨
       r = .RobustLoseContextOnReset ∨ r = .TryRobustLoseContextOnReset) →
      ∃ attrs, context_attributes ev exts api v dbg r = .ok attrs ∧
        EGL_CONTEXT_OPENGL_RESET_NOTIFICATION_STRATEGY ∈ attrs) := by
  refine ⟨?_, ?_, ?_, ?_⟩
  · intro ev exts api v dbg r hpath hsup hr
    unfold context_attributes
    rw [if_pos hpath]
    rcases hr with hr | hr <;> subst hr <;>
      simp [robust_segment, hsup]
  · intro ev exts api v dbg r hpath hlegacy hr
    unfold context_attributes
    rw [if_neg (fun hc => by rw [hc] at hpath; cases hpath), if_pos hlegacy]
    rcases hr with hr | hr <;> subst hr <;> rfl
  · intro B ev exts api v dbg r hr
    have hrs : ∃ pr, robust_segment (supports_robustness ev exts) exts r
        = .ok pr := by
      rcases hr with hr | hr <;> subst hr <;>
        cases hsup : supports_robustness ev exts <;>
        simp [robust_segment, hsup]
    obtain ⟨⟨rseg, flags⟩, hrs⟩ := hrs
    have hattrs : ∃ attrs, context_attributes ev exts api v dbg r
        = .ok attrs := by
      unfold context_attributes
      split
      · rw [hrs]
        exact ⟨_, rfl⟩
      · split
        · rcases hr with hr | hr <;> subst hr <;> exact ⟨_, rfl⟩
        · exact ⟨_, rfl⟩
    obtain ⟨attrs, hattrs⟩ := hattrs
    unfold create_context
    rw [hattrs]
    split
    · rename_i e heq
      cases heq
    · split
      · simp
      · split <;> simp
  · intro ev exts api v dbg r hpath hsup hr
    unfold context_attributes
    rw [if_pos hpath]
    rcases hr with hr | hr | hr | hr <;> subst hr <;>
      simp [robust_segment, hsup, List.mem_append]

/-- Witness for the amended C5: part (b) at EGL 1.3 / GLES with a required
variant. -/
theorem robustness_policy_mapping_witness :
    context_attributes (1, 3) [] Api.OpenGlEs (2, 0) false
      .RobustNoResetNotification = .error .RobustnessNotSupported :=
  robustness_policy_mapping.2.1 (1, 3) [] Api.OpenGlEs (2, 0) false
    .RobustNoResetNotification rfl rfl (Or.inl rfl)

/-! ### Claim C6 -/

/-- A driver like `test_backend` whose per-config `MIN_SWAP_INTERVAL`
query fails. -/
def failing_min_backend : EglBackend :=
  { test_backend with
    getConfigAttrib := fun c a =>
      if a = EGL_MIN_SWAP_INTERVAL then none
      else test_backend.getConfigAttrib c a }

/-- Claim C6 counterexample: the `MIN_SWAP_INTERVAL` query fails for the
only candidate configuration, yet selection succeeds (the failure is
ignored, the bound defaults to 0) instead of reporting
`CreationError::OsError` — so not every failing native query during
selection is reported as a hard error. -/
theorem swap_interval_query_failure_ignored_counterexample :
    failing_min_backend.getConfigAttrib 7 EGL_MIN_SWAP_INTERVAL = none ∧
    choose_fbconfig failing_min_backend (1, 4) Api.OpenGlEs none test_pf_reqs
      .Window GlAttributes.default test_sel
      = some (.ok (7, test_resolved, ⟨0, 1⟩)) :=
  ⟨rfl, rfl⟩

theorem attrib_error {B : EglBackend} {c : Nat} {a : Int} {e : CreationError}
    (h : attrib B c a = .error e) :
    e = .OsError "eglGetConfigAttrib failed" := by
  unfold attrib at h
  split at h
  · injection h with h
    exact h.symm
  · exact absurd h (by simp)

theorem resolve_error_os {B : EglBackend} {cfgid : Nat} {e : CreationError}
    (h : resolve_pixel_format B cfgid = .error e) :
    e = .OsError "eglGetConfigAttrib failed" := by
  unfold resolve_pixel_format at h
  repeat' split at h
  all_goals cases h
  all_goals exact attrib_error (by assumption)

/-- `choose_fbconfig` after a successfully built descriptor, written as a
decision tree over the backend oracles (the `let` bindings of the source
zeta-reduced). -/
theorem choose_fbconfig_ok_desc
    (B : EglBackend) (egl_version : Int × Int) (api : Api)
    (version : Option (Nat × Nat)) (pf_reqs : PixelFormatRequirements)
    (st : SurfaceType) (opengl : GlAttributes)
    (sel : List Nat → Except Unit Nat) (desc : List Int)
    (hdesc : build_descriptor egl_version api version pf_reqs st
      = some (.ok desc)) :
    choose_fbconfig B egl_version api version pf_reqs st opengl sel
      = match B.chooseConfigCount desc with
        | none => some (.error (.OsError "eglChooseConfig failed"))
        | some num_configs =>
          if num_configs = 0 then some (.error .NoAvailablePixelFormat)
          else match B.chooseConfigFill desc num_configs with
            | none => some (.error (.OsError "eglChooseConfig failed"))
            | some config_ids =>
              if ((filter_configs B opengl.vsync.get_swap_interval
                  config_ids).map Prod.fst).isEmpty then
                some (.error .NoAvailablePixelFormat)
              else
                match sel ((filter_configs B opengl.vsync.get_swap_interval
                    config_ids).map Prod.fst) with
                | .error _ => some (.error .NoAvailablePixelFormat)
                | .ok config_id =>
                  match resolve_pixel_format B config_id with
                  | .error e => some (.error e)
                  | .ok d =>
                    match lookup_range (filter_configs B
                        opengl.vsync.get_swap_interval config_ids) config_id with
                    | none => none
                    | some r => some (.ok (config_id, d, r)) := by
  unfold choose_fbconfig
  rw [hdesc]

/-- Claim C6 (amended): after the descriptor is built, a failing
`eglChooseConfig` (either call) or a failing attribute re-query on the
chosen configuration is reported as `CreationError::OsError`, while zero
candidates, an empty post-vsync-filter set, and a failing tie-break
callback are reported as `CreationError::NoAvailablePixelFormat`; the
per-config min/max swap-interval queries are the exception — their
failures are ignored, the bound keeping its `0` initializer (see the
counterexample). -/
theorem selection_error_mapping
    (B : EglBackend) (egl_version : Int × Int) (api : Api)
    (version : Option (Nat × Nat)) (pf_reqs : PixelFormatRequirements)
    (st : SurfaceType) (opengl : GlAttributes)
    (sel : List Nat → Except Unit Nat) (desc : List Int)
    (hdesc : build_descriptor egl_version api version pf_reqs st
      = some (.ok desc)) :
    (B.chooseConfigCount desc = none →
      choose_fbconfig B egl_version api version pf_reqs st opengl sel
        = some (.error (.OsError "eglChooseConfig failed"))) ∧
    (B.chooseConfigCount desc = some 0 →
      choose_fbconfig B egl_version api version pf_reqs st opengl sel
        = some (.error .NoAvailablePixelFormat)) ∧
    (∀ n, n ≠ 0 → B.chooseConfigCount desc = some n →
      B.chooseConfigFill desc n = none →
      choose_fbconfig B egl_version api version pf_reqs st opengl sel
        = some (.error (.OsError "eglChooseConfig failed"))) ∧
    (∀ n ids, n ≠ 0 → B.chooseConfigCount desc = some n →
      B.chooseConfigFill desc n = some ids →
      filter_configs B opengl.vsync.get_swap_interval ids = [] →
      choose_fbconfig B egl_version api version pf_reqs st opengl sel
        = some (.error .NoAvailablePixelFormat)) ∧
    (∀ n ids, n ≠ 0 → B.chooseConfigCount desc = some n →
      B.chooseConfigFill desc n = some ids →
      filter_configs B opengl.vsync.get_swap_interval ids ≠ [] →
      sel ((filter_configs B opengl.vsync.get_swap_interval ids).map
        Prod.fst) = .error () →
      choose_fbconfig B egl_version api version pf_reqs st opengl sel
        = some (.error .NoAvailablePixelFormat)) ∧
    (∀ n ids cfgid e, n ≠ 0 → B.chooseConfigCount desc = some n →
      B.chooseConfigFill desc n = some ids →
      filter_configs B opengl.vsync.get_swap_interval ids ≠ [] →
      sel ((filter_configs B opengl.vsync.get_swap_interval ids).map
        Prod.fst) = .ok cfgid →
      resolve_pixel_format B cfgid = .error e →
      choose_fbconfig B egl_version api version pf_reqs st opengl sel
          = some (.error e) ∧
        e = .OsError "eglGetConfigAttrib failed") := by
  refine ⟨?_, ?_, ?_, ?_, ?_, ?_⟩
  · intro h1
    rw [choose_fbconfig_ok_desc B egl_version api version pf_reqs st opengl
      sel desc hdesc, h1]
  · intro h1
    rw [choose_fbconfig_ok_desc B egl_version api version pf_reqs st opengl
      sel desc hdesc, h1]
    rfl
  · intro n hn h1 h2
    rw [choose_fbconfig_ok_desc B egl_version api version pf_reqs st opengl
      sel desc hdesc, h1]
    simp [if_neg hn, h2]
  · intro n ids hn h1 h2 h3
    rw [choose_fbconfig_ok_desc B egl_version api version pf_reqs st opengl
      sel desc hdesc, h1]
    simp [if_neg hn, h2, h3]
  · intro n ids hn h1 h2 h3 h4
    have h3a : ((filter_configs B opengl.vsync.get_swap_interval ids).map
        Prod.fst).isEmpty = false := by
      cases hfl : filter_configs B opengl.vsync.get_swap_interval ids with
      | nil => exact absurd hfl h3
      | cons a l => rfl
    rw [choose_fbconfig_ok_desc B egl_version api version pf_reqs st opengl
      sel desc hdesc, h1]
    simp [if_neg hn, h2, h3a, h4]
  · intro n ids cfgid e hn h1 h2 h3 h4 h5
    have h3a : ((filter_configs B opengl.vsync.get_swap_interval ids).map
        Prod.fst).isEmpty = false := by
      cases hfl : filter_configs B opengl.vsync.get_swap_interval ids with
      | nil => exact absurd hfl h3
      | cons a l => rfl
    refine ⟨?_, resolve_error_os h5⟩
    rw [choose_fbconfig_ok_desc B egl_version api version pf_reqs st opengl
      sel desc hdesc, h1]
    simp [if_neg hn, h2, h3a, h4, h5]

/-- The descriptor built for `test_pf_reqs` on EGL 1.4 / GLES. -/
def test_desc : List Int :=
  [12351, 12430, 12339, 4, 12352, 1, 12354, 1, 12337, 0, 12344]

/-- A driver reporting zero matching configurations. -/
def empty_backend : EglBackend :=
  { test_backend with chooseConfigCount := fun _ => some 0 }

/-- Witness for the amended C6: a successful count query returning zero
candidates is the recoverable no-available-pixel-format outcome. -/
theorem selection_error_mapping_witness :
    choose_fbconfig empty_backend (1, 4) Api.OpenGlEs none test_pf_reqs
      .Window GlAttributes.default test_sel
      = some (.error .NoAvailablePixelFormat) :=
  (selection_error_mapping empty_backend (1, 4) .OpenGlEs none test_pf_reqs
    .Window GlAttributes.default test_sel test_desc rfl).2.1 rfl

/-! ### Claim C9 -/

/-- Claim C9: `make_current` followed immediately by `make_not_current` on
the same thread, with the backend reporting success on both calls (no
context loss), succeeds, leaves `is_current()` false (the context handle
being non-null), and returns the context value unchanged — in particular
`get_pixel_format` yields the same resolved `PixelFormat` as before. -/
theorem make_current_roundtrip (c : Context) (s : CurrentState)
    (e e' : Int) (h : c.context ≠ NO_CONTEXT) :
    ∃ s₁ c₁ s₂ c₂,
      make_current true e s c = some (.ok (), s₁, c₁) ∧
      make_not_current true e' s₁ c₁ = some (.ok (), s₂, c₂) ∧
      is_current s₂ c₂ = false ∧
      get_pixel_format c₂ = get_pixel_format c := by
  refine ⟨{ ctx := c.context, draw := c.surface.getD NO_SURFACE,
            read := c.surface.getD NO_SURFACE }, c,
          { ctx := NO_CONTEXT, draw := NO_SURFACE, read := NO_SURFACE }, c,
          rfl, ?_, ?_, rfl⟩
  · unfold make_not_current
    rw [if_pos]
    · rfl
    · simp
  · simp only [is_current, NO_CONTEXT] at h ⊢
    simp [Ne.symm h]

/-- Witness for C9 at a concrete context. -/
theorem make_current_roundtrip_witness :
    ∃ s₁ c₁ s₂ c₂,
      make_current true 0
          ⟨5, 6, 6⟩
          { display := 1, context := 2, surface := some 3, api := .OpenGlEs,
            pixel_format := test_resolved, swap_interval_range := ⟨0, 1⟩ }
        = some (.ok (), s₁, c₁) ∧
      make_not_current true 0 s₁ c₁ = some (.ok (), s₂, c₂) ∧
      is_current s₂ c₂ = false ∧
      get_pixel_format c₂ = get_pixel_format
        { display := 1, context := 2, surface := some 3, api := .OpenGlEs,
          pixel_format := test_resolved, swap_interval_range := ⟨0, 1⟩ } :=
  make_current_roundtrip
    { display := 1, context := 2, surface := some 3, api := .OpenGlEs,
      pixel_format := test_resolved, swap_interval_range := ⟨0, 1⟩ }
    ⟨5, 6, 6⟩ 0 0 (by decide)

/-! ### Claim C10 -/

/-- Claim C10: when the stored surface handle is the `NO_SURFACE` sentinel,
`swap_buffers` returns `Err(ContextError::ContextLost)` without issuing
any backend call; when a real (non-null) surface handle is present, the
backend swap is invoked exactly once, with that surface. -/
theorem swap_buffers_surface_sentinel (c : Context) (swapOk : Bool)
    (errCode : Int) (s : Nat) :
    (c.surface = some NO_SURFACE →
      swap_buffers swapOk errCode c = ([], some (.error .ContextLost))) ∧
    (c.surface = some s → s ≠ NO_SURFACE →
      (swap_buffers swapOk errCode c).1
        = [.swapBuffersCall c.display s]) := by
  constructor
  · intro hs
    unfold swap_buffers
    rw [hs]
    rfl
  · intro hs hne
    simp only [swap_buffers, hs]
    rw [if_neg (by simp [hne])]
    split_ifs <;> rfl

/-- Witness for C10: the sentinel case and the real-surface case at
concrete contexts. -/
theorem swap_buffers_surface_sentinel_witness :
    (swap_buffers true 0
        { display := 1, context := 2, surface := some 0, api := .OpenGlEs,
          pixel_format := test_resolved, swap_interval_range := ⟨0, 1⟩ }
      = ([], some (.error .ContextLost))) ∧
    ((swap_buffers true 0
        { display := 1, context := 2, surface := some 3, api := .OpenGlEs,
          pixel_format := test_resolved, swap_interval_range := ⟨0, 1⟩ }).1
      = [.swapBuffersCall 1 3]) :=
  ⟨(swap_buffers_surface_sentinel
      { display := 1, context := 2, surface := some 0, api := .OpenGlEs,
        pixel_format := test_resolved, swap_interval_range := ⟨0, 1⟩ }
      true 0 0).1 rfl,
   (swap_buffers_surface_sentinel
      { display := 1, context := 2, surface := some 3, api := .OpenGlEs,
        pixel_format := test_resolved, swap_interval_range := ⟨0, 1⟩ }
      true 0 3).2 rfl (by decide)⟩

end Glutin
